import Mathlib

/-!
Shallow embedding of the gpu-hot alerting and hub-aggregation core
(`core/alerts.py`, `core/hub.py`) and proofs about it.

Modelling conventions:
* Python floats (metric values, thresholds, timestamps) are modelled as `ℚ`.
* A dynamically typed JSON value that may or may not coerce via `float(...)`
  is modelled by `JVal`: `JVal.num q` is any value `float()` accepts (carrying
  the coerced number), `JVal.null` is Python `None`, and `JVal.nonnum` is any
  value `float()` rejects.
* Python dicts that are used as keyed tables are modelled as association
  lists with first-occurrence lookup and in-place replacement.
* In-place object mutation plus a raised exception is modelled by returning
  the (possibly partially mutated) record together with an optional error.
* Background sends (`eventlet.spawn_n`) are modelled as a sequential pass over
  the backends; each unit of work is the body of `_send_backend`.
-/

/-- First-occurrence lookup in an association list (Python `dict` access). -/
def assocGet {κ α : Type} [DecidableEq κ] : List (κ × α) → κ → Option α
  | [], _ => none
  | p :: rest, k => if p.1 = k then some p.2 else assocGet rest k

/-- Replace the binding of `k` (Python `dict` assignment: keys stay unique,
insertion order preserved, new keys appended at the end). -/
def assocSet {κ α : Type} [DecidableEq κ] : List (κ × α) → κ → α → List (κ × α)
  | [], k, v => [(k, v)]
  | p :: rest, k, v => if p.1 = k then (k, v) :: rest else p :: assocSet rest k v

theorem assocGet_assocSet_self {κ α : Type} [DecidableEq κ]
    (l : List (κ × α)) (k : κ) (v : α) : assocGet (assocSet l k v) k = some v := by
  induction l with
  | nil => simp [assocSet, assocGet]
  | cons p rest ih =>
    by_cases h : p.1 = k
    · simp [assocSet, assocGet, h]
    · simp [assocSet, assocGet, h, ih]

theorem assocGet_assocSet_ne {κ α : Type} [DecidableEq κ]
    (l : List (κ × α)) (k k' : κ) (v : α) (h : k ≠ k') :
    assocGet (assocSet l k v) k' = assocGet l k' := by
  induction l with
  | nil => simp [assocSet, assocGet, h]
  | cons p rest ih =>
    by_cases hp : p.1 = k
    · simp [assocSet, assocGet, hp, h]
    · simp [assocSet, assocGet, hp, ih]

/-- A dynamically typed value as seen by `_safe_float`. -/
inductive JVal
  | num (q : ℚ)
  | null
  | nonnum
deriving Repr, DecidableEq

/-- `_safe_float(x)` from `core/alerts.py`: `None` and non-coercible values
give `None`; a coercible value gives the coerced float.  The argument is an
`Option` so that `_safe_float(d.get(k))` (missing key) is covered too. -/
def safe_float : Option JVal → Option ℚ
  | none => none
  | some (.num q) => some q
  | some .null => none
  | some .nonnum => none

/-- One GPU's metrics dict (metric name to value). -/
abbrev Metrics := List (String × JVal)

/-- `AlertRule` from `core/alerts.py` (the `formatter` field, used only for
message text, is omitted). -/
structure AlertRule where
  name : String
  label : String
  unit : String
  threshold : ℚ
  extractor : Metrics → Option ℚ
  reset_delta : Option ℚ := none

/-- `AlertRule.is_enabled`. -/
def AlertRule.is_enabled (r : AlertRule) : Bool := r.threshold > 0

/-- One `_state` entry: `{"active": bool, "last_sent": float}`. -/
structure AlertState where
  active : Bool
  last_sent : ℚ
deriving Repr, DecidableEq

/-- `_state` key `(node_name, gpu_id, rule_name)`. -/
abbrev AlertKey := String × String × String

abbrev StateTable := List (AlertKey × AlertState)

/-- `self._state.setdefault(key, {"active": False, "last_sent": 0.0})`:
lookup with the lazily created default. -/
def tableGet (t : StateTable) (k : AlertKey) : AlertState :=
  (assocGet t k).getD ⟨false, 0⟩

/-- A constructed notification backend (`DiscordWebhookBackend` /
`TelegramBackend`), reduced to its configuration. -/
inductive BackendSpec
  | discord (webhook_url : String)
  | telegram (bot_token chat_id : String)
deriving Repr, DecidableEq

def BackendSpec.backendName : BackendSpec → String
  | .discord _ => "discord"
  | .telegram _ _ => "telegram"

/-- One entry of `backend_settings` (a normalized channel dict).  String
fields that the dict may omit are modelled as `""` (the code reads them with
`str(entry.get(k, ""))`). -/
structure ChannelSetting where
  ctype : String
  webhook_url : String := ""
  bot_token : String := ""
  chat_id : String := ""
  id : Option String := none
  enabled : Bool := true
deriving Repr, DecidableEq

/-- `AlertManager._build_backends_from_settings`. -/
def build_backends_from_settings (settings : List ChannelSetting) : List BackendSpec :=
  settings.filterMap fun entry =>
    if entry.enabled = false then none
    else if entry.ctype = "discord" then
      let webhook := entry.webhook_url.trim
      if webhook ≠ "" then some (.discord webhook) else none
    else if entry.ctype = "telegram" then
      let token := entry.bot_token.trim
      let chat_id := entry.chat_id.trim
      if token ≠ "" ∧ chat_id ≠ "" then some (.telegram token chat_id) else none
    else none

/-- `AlertManager._ensure_channel_ids`.  `uuid4().hex` is modelled as a
deterministic fresh id derived from the entry position. -/
def ensure_channel_ids (channels : List ChannelSetting) : List ChannelSetting :=
  channels.enum.map fun p =>
    { p.2 with
      id := match p.2.id with
            | none => some (toString p.1)
            | some s => if s = "" then some (toString p.1) else some s }

/-- The in-memory `AlertManager` state (lock, stores and message formatting
omitted; persistence is threaded through `apply_settings_locked` explicitly). -/
structure AlertManager where
  enabled : Bool
  cooldown_seconds : ℚ
  reset_delta : Option ℚ
  rules : List AlertRule
  backend_settings : List ChannelSetting
  backends : List BackendSpec
  /-- `self._custom_backends is not None` -/
  custom_backends : Bool
  /-- `self._state` -/
  state : StateTable

/-- `AlertManager._is_active_locked`. -/
def AlertManager.is_active_locked (m : AlertManager) : Bool :=
  m.enabled && !m.backends.isEmpty && m.rules.any (·.is_enabled)

/-- Accumulator for the per-GPU rule loop in `AlertManager.evaluate`:
the mutated `_state` plus the `triggered` and `recovered` batches
(rules are recorded by name, as in the dispatch `context`). -/
structure RuleCycleAcc where
  table : StateTable
  triggered : List (String × ℚ)
  recovered : List (String × Option ℚ)

/-- The body of `for rule in self.rules` in `AlertManager.evaluate`
(lines 490-529 of `core/alerts.py`). -/
def evalRuleStep (m : AlertManager) (timestamp : ℚ) (node_name gpu_id : String)
    (metrics : Metrics) (acc : RuleCycleAcc) (rule : AlertRule) : RuleCycleAcc :=
  if rule.is_enabled = false then acc
  else
    let value := rule.extractor metrics
    let state_key : AlertKey := (node_name, gpu_id, rule.name)
    let state := tableGet acc.table state_key
    let over_threshold : Bool :=
      match value with
      | some v => decide (v ≥ rule.threshold)
      | none => false
    let reset_delta := match rule.reset_delta with
      | some r => some r
      | none => m.reset_delta
    if over_threshold then
      if !state.active || decide (timestamp - state.last_sent ≥ m.cooldown_seconds) then
        { table := assocSet acc.table state_key ⟨true, timestamp⟩,
          triggered := acc.triggered ++ [(rule.name, value.getD 0)],
          recovered := acc.recovered }
      else
        { acc with table := assocSet acc.table state_key state }
    else
      let was_active := state.active
      let table' := assocSet acc.table state_key ⟨false, state.last_sent⟩
      if was_active then
        let recovered_now : Bool :=
          match value, reset_delta with
          | none, _ => true
          | some _, none => true
          | some v, some r => decide (v ≤ rule.threshold - r)
        if recovered_now then
          -- `cooldown = self.cooldown_seconds or 0.0` is the identity on floats
          let cooldown := m.cooldown_seconds
          let should_notify : Bool :=
            decide (cooldown ≤ 0) || decide (timestamp - state.last_sent ≥ cooldown)
          if should_notify then
            { table := table', triggered := acc.triggered,
              recovered := acc.recovered ++ [(rule.name, value)] }
          else
            { acc with table := table' }
        else
          { acc with table := table' }
      else
        { acc with table := table' }

/-- The whole rule loop for one GPU. -/
def rulePass (m : AlertManager) (timestamp : ℚ) (node_name gpu_id : String)
    (metrics : Metrics) (t : StateTable) : RuleCycleAcc :=
  m.rules.foldl (evalRuleStep m timestamp node_name gpu_id metrics) ⟨t, [], []⟩

/-- One outbound message handed to `_dispatch` (message text and embed are
reduced to the batched rule entries in the `context`). -/
structure Dispatch where
  node_name : String
  gpu_id : String
  event : String
  entries : List (String × Option ℚ)
deriving Repr, DecidableEq

/-- The per-GPU tail of `AlertManager.evaluate`: at most one alert dispatch
and one recovery dispatch, each carrying the whole batch. -/
def evaluateGpu (m : AlertManager) (timestamp : ℚ) (node_name gpu_id : String)
    (metrics : Metrics) (t : StateTable) : StateTable × List Dispatch :=
  let acc := rulePass m timestamp node_name gpu_id metrics t
  let alerts : List Dispatch :=
    if acc.triggered.isEmpty then []
    else [⟨node_name, gpu_id, "alert", acc.triggered.map fun p => (p.1, some p.2)⟩]
  let recoveries : List Dispatch :=
    if acc.recovered.isEmpty then []
    else [⟨node_name, gpu_id, "recovery", acc.recovered⟩]
  (acc.table, alerts ++ recoveries)

/-- `for gpu_id, metrics in gpu_data.items()` (dicts iterate in insertion
order, so the dict is passed as an association list). -/
def evalGpus (m : AlertManager) (timestamp : ℚ) (node_name : String) :
    List (String × Metrics) → StateTable → StateTable × List Dispatch
  | [], t => (t, [])
  | g :: rest, t =>
    let r1 := evaluateGpu m timestamp node_name g.1 g.2 t
    let r2 := evalGpus m timestamp node_name rest r1.1
    (r2.1, r1.2 ++ r2.2)

/-- `AlertManager.evaluate` (the wall clock `time.time()` is passed in). -/
def AlertManager.evaluate (m : AlertManager) (timestamp : ℚ) (node_name : String)
    (gpu_data : List (String × Metrics)) : AlertManager × List Dispatch :=
  if m.is_active_locked = false then (m, [])
  else
    let r := evalGpus m timestamp node_name gpu_data m.state
    ({ m with state := r.1 }, r.2)

/-- One entry of a `backends` payload list (the dict form of
`_normalize_backend_payload`; absent string keys read as `""`). -/
structure ChannelPayloadEntry where
  ctype : Option String
  webhook_url : String := ""
  bot_token : String := ""
  chat_id : String := ""
  id : Option String := none
  /-- `entry.get("enabled", True) is not False` -/
  enabled : Bool := true
deriving Repr, DecidableEq

/-- The list branch of `AlertManager._normalize_backend_payload`
(the legacy single-object dict form is not exercised by any claim). -/
def normalize_backend_payload (payload : Option (List ChannelPayloadEntry)) :
    Except String (List ChannelSetting) :=
  match payload with
  | none => .ok []
  | some entries =>
    entries.foldlM (fun (normalized : List ChannelSetting) entry =>
      match entry.ctype with
      | some "discord" =>
        let url := entry.webhook_url.trim
        if entry.enabled = false then
          .ok (normalized ++ [⟨"discord", url, "", "", entry.id, false⟩])
        else if url = "" then
          .error "Discord channels require a webhook_url"
        else
          .ok (normalized ++ [⟨"discord", url, "", "", entry.id, true⟩])
      | some "telegram" =>
        let token := entry.bot_token.trim
        let chat_id := entry.chat_id.trim
        if entry.enabled = false then
          .ok (normalized ++ [⟨"telegram", "", token, chat_id, entry.id, false⟩])
        else if token = "" ∨ chat_id = "" then
          .error "Telegram channels require both bot_token and chat_id"
        else
          .ok (normalized ++ [⟨"telegram", "", token, chat_id, entry.id, true⟩])
      | _ => .ok normalized) []

/-- One entry of a `rules` payload list. `Option` on `threshold` /
`reset_delta` is key presence; the `JVal` is the (possibly null or
non-numeric) value. -/
structure RuleEntryPayload where
  name : Option String
  threshold : Option JVal := none
  reset_delta : Option JVal := none
deriving Repr, DecidableEq

/-- A settings payload: `Option` on each field is key presence.
`enabled` carries the result of `bool(...)` coercion. -/
structure SettingsPayload where
  enabled : Option Bool := none
  cooldown_seconds : Option JVal := none
  reset_delta : Option JVal := none
  rules : Option (List RuleEntryPayload) := none
  backends : Option (List ChannelPayloadEntry) := none

/-- How `update_settings` can fail: `ValueError` (validation) or
`RuntimeError` (persistence). -/
inductive ApplyError
  | validation (msg : String)
  | persistence
deriving Repr, DecidableEq

/-- Sequencing of mutate-or-raise steps: once an error is raised the
remaining statements do not run, but mutations already made stay. -/
def orRaise (r : AlertManager × Option ApplyError)
    (f : AlertManager → AlertManager × Option ApplyError) :
    AlertManager × Option ApplyError :=
  match r with
  | (m, some e) => (m, some e)
  | (m, none) => f m

/-- `if "enabled" in payload: self.enabled = bool(payload["enabled"])`. -/
def applyEnabled (p : SettingsPayload) (m : AlertManager) : AlertManager × Option ApplyError :=
  match p.enabled with
  | none => (m, none)
  | some b => ({ m with enabled := b }, none)

/-- The `cooldown_seconds` block of `_apply_settings_locked`. -/
def applyCooldown (p : SettingsPayload) (m : AlertManager) : AlertManager × Option ApplyError :=
  match p.cooldown_seconds with
  | none => (m, none)
  | some raw =>
    match safe_float (some raw) with
    | none => (m, some (.validation "cooldown_seconds must be a number"))
    | some cooldown =>
      if cooldown < 0 then
        (m, some (.validation "cooldown_seconds must be greater than or equal to zero"))
      else
        ({ m with cooldown_seconds := cooldown }, none)

/-- The `reset_delta` block of `_apply_settings_locked`. -/
def applyResetDelta (p : SettingsPayload) (m : AlertManager) : AlertManager × Option ApplyError :=
  match p.reset_delta with
  | none => (m, none)
  | some .null => ({ m with reset_delta := none }, none)
  | some raw =>
    match safe_float (some raw) with
    | none => (m, some (.validation "reset_delta must be a number or null"))
    | some reset =>
      if reset < 0 then
        (m, some (.validation "reset_delta must be greater than or equal to zero"))
      else
        ({ m with reset_delta := some reset }, none)

/-- `rule_map = {rule.name: rule for rule in self.rules}` maps a name to the
last rule carrying it, and mutating that object updates the corresponding
list slot: update the last occurrence. -/
def updateLastRule (rules : List AlertRule) (n : String) (f : AlertRule → AlertRule) :
    List AlertRule :=
  match rules with
  | [] => []
  | r :: rest =>
    if rest.any (fun r' => r'.name = n) then r :: updateLastRule rest n f
    else if r.name = n then f r :: rest
    else r :: rest

def ruleNameMem (rules : List AlertRule) (n : String) : Bool :=
  rules.any (fun r => r.name = n)

/-- The body of `for entry in rules_payload` in `_apply_settings_locked`:
unknown or missing names are skipped, `threshold` is applied before
`reset_delta`, each after validating. -/
def applyRuleEntry (entry : RuleEntryPayload) (m : AlertManager) :
    AlertManager × Option ApplyError :=
  match entry.name with
  | none => (m, none)
  | some n =>
    if n = "" ∨ ruleNameMem m.rules n = false then (m, none)
    else
      orRaise
        (match entry.threshold with
         | none => (m, none)
         | some raw =>
           match safe_float (some raw) with
           | none => (m, some (.validation "threshold must be a number"))
           | some threshold =>
             if threshold < 0 then (m, some (.validation "threshold must be >= 0"))
             else
               ({ m with rules := (updateLastRule m.rules n
                    (fun r => { r with threshold := threshold })) }, none))
        (fun m1 =>
          match entry.reset_delta with
          | none => (m1, none)
          | some .null =>
            ({ m1 with rules := (updateLastRule m1.rules n
                 (fun r => { r with reset_delta := none })) }, none)
          | some raw =>
            match safe_float (some raw) with
            | none => (m1, some (.validation "reset_delta must be a number or null"))
            | some reset_delta =>
              if reset_delta < 0 then (m1, some (.validation "reset_delta must be >= 0"))
              else
                ({ m1 with rules := (updateLastRule m1.rules n
                     (fun r => { r with reset_delta := some reset_delta })) }, none))

/-- The `rules` block of `_apply_settings_locked`. -/
def applyRules (p : SettingsPayload) (m : AlertManager) : AlertManager × Option ApplyError :=
  match p.rules with
  | none => (m, none)
  | some entries => entries.foldl (fun acc entry => orRaise acc (applyRuleEntry entry)) (m, none)

/-- The `backends` block of `_apply_settings_locked`. -/
def applyBackends (p : SettingsPayload) (m : AlertManager) : AlertManager × Option ApplyError :=
  match p.backends with
  | none => (m, none)
  | some chans =>
    if m.custom_backends then (m, none)
    else
      match normalize_backend_payload (some chans) with
      | .error msg => (m, some (.validation msg))
      | .ok normalized =>
        let bs := ensure_channel_ids normalized
        ({ m with backend_settings := bs,
                  backends := build_backends_from_settings bs }, none)

/-- The validating/mutating part of `_apply_settings_locked` (everything
before `self._state.clear()`). -/
def apply_validated (p : SettingsPayload) (m : AlertManager) : AlertManager × Option ApplyError :=
  orRaise (orRaise (orRaise (orRaise (applyEnabled p m) (applyCooldown p))
    (applyResetDelta p)) (applyRules p)) (applyBackends p)

/-- `AlertManager._apply_settings_locked`.  `hasStore` is
`self.settings_store is not None` and `saveOk` is whether
`settings_store.save` succeeds. -/
def apply_settings_locked (p : SettingsPayload) (persist hasStore saveOk : Bool)
    (m : AlertManager) : AlertManager × Option ApplyError :=
  orRaise (apply_validated p m) (fun m1 =>
    -- Reset alert state so new thresholds are respected immediately
    let m2 := { m1 with state := [] }
    if persist && hasStore && !saveOk then (m2, some .persistence) else (m2, none))

/-- One rule in the `get_settings` / `update_settings` response snapshot. -/
structure RuleSnapshot where
  name : String
  label : String
  unit : String
  threshold : ℚ
  reset_delta : Option ℚ
  is_enabled : Bool
deriving Repr, DecidableEq

def ruleSnapshotOf (r : AlertRule) : RuleSnapshot :=
  ⟨r.name, r.label, r.unit, r.threshold, r.reset_delta, r.is_enabled⟩

/-- `AlertManager._snapshot_for_response_locked` (the `persisted` flag and the
`defaults` copy, which never change after construction, are omitted). -/
structure SettingsSnapshot where
  enabled : Bool
  cooldown_seconds : ℚ
  reset_delta : Option ℚ
  rules : List RuleSnapshot
  backends : List ChannelSetting
  available_backends : List String
  notifications_configured : Bool
  active : Bool
deriving Repr, DecidableEq

def snapshot_for_response_locked (m : AlertManager) : SettingsSnapshot :=
  { enabled := m.enabled,
    cooldown_seconds := m.cooldown_seconds,
    reset_delta := m.reset_delta,
    rules := m.rules.map ruleSnapshotOf,
    backends := m.backend_settings,
    available_backends := m.backends.map BackendSpec.backendName,
    notifications_configured := !m.backends.isEmpty,
    active := m.is_active_locked }

/-- `AlertManager.update_settings`: apply with `persist=True`, then return
the new snapshot; a raised `ValueError`/`RuntimeError` is the `.error` case
(and the manager object keeps any mutations made before the raise). -/
def update_settings (p : SettingsPayload) (hasStore saveOk : Bool) (m : AlertManager) :
    AlertManager × Except ApplyError SettingsSnapshot :=
  match apply_settings_locked p true hasStore saveOk m with
  | (m1, some e) => (m1, .error e)
  | (m1, none) => (m1, .ok (snapshot_for_response_locked m1))

def exceptIsOk {ε α : Type} : Except ε α → Bool
  | .ok _ => true
  | .error _ => false

def isValidationError {α : Type} : Except ApplyError α → Bool
  | .error (.validation _) => true
  | _ => false

def isPersistenceError {α : Type} : Except ApplyError α → Bool
  | .error .persistence => true
  | _ => false

def snapshotRulesOf : Except ApplyError SettingsSnapshot → List RuleSnapshot
  | .ok s => s.rules
  | .error _ => []

/-- A notification channel: `send(message, context)` either succeeds or
raises (`Except.error` is a raised exception). The structured context is
folded into the message for this model. -/
structure NotificationBackend where
  backendName : String
  send : String → Except String Unit

/-- What one `_send_backend` unit of work ends as. -/
inductive SendOutcome
  | sent
  | failed (err : String)
deriving Repr, DecidableEq

/-- `AlertManager._send_backend`: run the channel's `send`, catching (and
logging) any raised exception.  The return type `SendOutcome` (not `Except`)
is the point: nothing propagates. -/
def send_backend (b : NotificationBackend) (message : String) : SendOutcome :=
  match b.send message with
  | .ok _ => .sent
  | .error e => .failed e

/-- `AlertManager._dispatch`: one independent `_send_backend` unit of work
per configured backend, each receiving the same message. -/
def dispatchToBackends (backends : List NotificationBackend) (message : String) :
    List (String × SendOutcome) :=
  backends.map fun b => (b.backendName, send_backend b message)

/-! ## Hub aggregation (`core/hub.py`) -/

/-- `config.CACHE_OFFLINE_DURATION` (default 300 s). -/
def CACHE_OFFLINE_DURATION : ℚ := 300

/-- One configured node (`{url, name}`; tags carry no behaviour). -/
structure NodeCfg where
  url : String
  name : String
deriving Repr, DecidableEq

/-- The per-node payload as it appears in the aggregated view.  Only the
fields the claims touch are kept: `gpus` / `processes` as opaque element
lists, plus the `status`, `cache_age` and `error` keys that the hub itself
writes (absent key = `none`).  `metadata`/`node_config`/`system` carry no
aggregation behaviour and are omitted. -/
structure NodeData where
  gpus : List String := []
  processes : List String := []
  status : Option String := none
  cache_age : Option ℚ := none
  error : Option String := none
deriving Repr, DecidableEq

/-- One `node_status` record. -/
structure NodeStatus where
  status : String
  last_seen : Option ℚ
  error_count : Nat
  last_error : Option String
deriving Repr, DecidableEq

/-- The `node_status` entry `__init__` seeds for every configured node. -/
def initialNodeStatus : NodeStatus := ⟨"unknown", none, 0, none⟩

/-- One `node_cache` entry: `{"data": ..., "cached_at": ...}`. -/
structure CacheEntry where
  data : NodeData
  cached_at : ℚ
deriving Repr, DecidableEq

/-- `HubMonitor` mutable state. -/
structure HubState where
  nodes : List NodeCfg
  node_cache : List (String × CacheEntry)
  node_status : List (String × NodeStatus)

/-- `node_status` access; `__init__` seeds every configured URL, so the
default only stands in for that seeding. -/
def statusGet (hs : HubState) (url : String) : NodeStatus :=
  (assocGet hs.node_status url).getD initialNodeStatus

/-- How one poll of one agent turns out (the network is an input). -/
inductive PollOutcome
  | success (data : NodeData)
  | timeout
  | connError
  | otherError (msg : String)
deriving Repr

def pollFails : PollOutcome → Bool
  | .success _ => false
  | _ => true

/-- `HubMonitor.poll_agent`: update `node_status` (and on success the cache)
for this node's URL and return the data or `None`.  All exceptions are
handled inside, so the function is total. -/
def poll_agent (now : ℚ) (hs : HubState) (node : NodeCfg) (outcome : PollOutcome) :
    HubState × Option NodeData :=
  match outcome with
  | .success data =>
    ({ hs with
        node_status := assocSet hs.node_status node.url ⟨"online", some now, 0, none⟩,
        node_cache := assocSet hs.node_cache node.url ⟨data, now⟩ },
     some data)
  | .timeout =>
    let st := statusGet hs node.url
    ({ hs with node_status := (assocSet hs.node_status node.url
        ⟨"timeout", st.last_seen, st.error_count + 1, some "Timeout"⟩) }, none)
  | .connError =>
    let st := statusGet hs node.url
    ({ hs with node_status := (assocSet hs.node_status node.url
        ⟨"offline", st.last_seen, st.error_count + 1, some "Connection refused"⟩) }, none)
  | .otherError msg =>
    let st := statusGet hs node.url
    ({ hs with node_status := (assocSet hs.node_status node.url
        ⟨"error", st.last_seen, st.error_count + 1, some msg⟩) }, none)

/-- `HubMonitor.get_cached_data`. -/
def get_cached_data (now : ℚ) (hs : HubState) (node_url : String) : Option NodeData :=
  match assocGet hs.node_cache node_url with
  | none => none
  | some cached =>
    let age := now - cached.cached_at
    if age < CACHE_OFFLINE_DURATION then
      some { cached.data with status := some "offline", cache_age := some age }
    else
      none

/-- The aggregate summary counters (the `node_status` echo and the ISO
timestamp string carry no counting behaviour and are omitted). -/
structure Summary where
  total_nodes : Nat
  online_nodes : Nat
  offline_nodes : Nat
  total_gpus : Nat
deriving Repr, DecidableEq

structure Aggregated where
  nodes : List (String × NodeData)
  summary : Summary
deriving Repr, DecidableEq

/-- The empty placeholder emitted when a node is offline with no usable
cache: `gpus`/`processes` empty, `status` and `error` from `node_status`
(the key is always present, so `.get('last_error', ...)` returns the stored
value). -/
def offlinePlaceholder (st : NodeStatus) : NodeData :=
  { gpus := [], processes := [], status := some st.status,
    cache_age := none, error := st.last_error }

/-- Processing of one completed future in `HubMonitor.aggregate_data`
(lines 155-198 of `core/hub.py`), fused with that node's own poll: every
poll touches only its own URL's status/cache entry, so running
poll-then-process per node is a faithful linearization of the
poll-in-parallel / process-as-completed original. -/
def processNode (now : ℚ) (outcome : String → PollOutcome) (hs : HubState)
    (agg : Aggregated) (node : NodeCfg) : HubState × Aggregated :=
  let r := poll_agent now hs node (outcome node.url)
  let hs1 := r.1
  match r.2 with
  | some data =>
    (hs1,
     { nodes := assocSet agg.nodes node.url data,
       summary := { agg.summary with
         online_nodes := agg.summary.online_nodes + 1,
         total_gpus := agg.summary.total_gpus + data.gpus.length } })
  | none =>
    match get_cached_data now hs1 node.url with
    | some cached_data =>
      (hs1,
       { nodes := assocSet agg.nodes node.url cached_data,
         summary := { agg.summary with
           offline_nodes := agg.summary.offline_nodes + 1,
           total_gpus := agg.summary.total_gpus + cached_data.gpus.length } })
    | none =>
      (hs1,
       { nodes := assocSet agg.nodes node.url (offlinePlaceholder (statusGet hs1 node.url)),
         summary := { agg.summary with
           offline_nodes := agg.summary.offline_nodes + 1 } })

def aggregateGo (now : ℚ) (outcome : String → PollOutcome) :
    List NodeCfg → HubState → Aggregated → HubState × Aggregated
  | [], hs, agg => (hs, agg)
  | node :: rest, hs, agg =>
    let r := processNode now outcome hs agg node
    aggregateGo now outcome rest r.1 r.2

/-- `HubMonitor.aggregate_data`. -/
def aggregate_data (now : ℚ) (outcome : String → PollOutcome) (hs : HubState) :
    HubState × Aggregated :=
  aggregateGo now outcome hs.nodes hs
    { nodes := [],
      summary := { total_nodes := hs.nodes.length, online_nodes := 0,
                   offline_nodes := 0, total_gpus := 0 } }

/-! ## Concrete fixtures (mirroring `tests/test_alerts.py`) -/

/-- `lambda gpu: _safe_float(gpu.get("temperature"))`. -/
def tempExtractor : Metrics → Option ℚ := fun gpu => safe_float (assocGet gpu "temperature")

/-- The temperature rule of the test fixture: threshold 80, reset_delta 5. -/
def tempRule : AlertRule :=
  { name := "temperature", label := "Temperature", unit := "C",
    threshold := 80, extractor := tempExtractor, reset_delta := some 5 }

/-- A manager as built in the tests: one rule, one custom backend,
cooldown 60, global reset_delta 5, no persisted settings. -/
def mgr0 : AlertManager :=
  { enabled := true, cooldown_seconds := 60, reset_delta := some 5,
    rules := [tempRule], backend_settings := [],
    backends := [.discord "https://example.com/hook"],
    custom_backends := true, state := [] }

def gpu90 : Metrics := [("temperature", .num 90)]
def gpu78 : Metrics := [("temperature", .num 78)]

/-- t=0: value 90 (over threshold). -/
def cdStep1 : AlertManager × List Dispatch :=
  AlertManager.evaluate mgr0 0 "node-1" [("0", gpu90)]

/-- t=10: still 90, inside the 60 s cooldown. -/
def cdStep2 : AlertManager × List Dispatch :=
  AlertManager.evaluate cdStep1.1 10 "node-1" [("0", gpu90)]

/-- t=65: still 90, cooldown elapsed. -/
def cdStep3 : AlertManager × List Dispatch :=
  AlertManager.evaluate cdStep2.1 65 "node-1" [("0", gpu90)]

/-- t=1 after the first trigger: value 78, strictly inside the hysteresis
band (75, 80). -/
def hyStep2 : AlertManager × List Dispatch :=
  AlertManager.evaluate cdStep1.1 1 "node-1" [("0", gpu78)]

/-- t=2: back to 90 right after the in-band dip. -/
def hyStep3 : AlertManager × List Dispatch :=
  AlertManager.evaluate hyStep2.1 2 "node-1" [("0", gpu90)]


/-! ## C9: channel isolation in dispatch -/

/-- A channel whose `send` always succeeds. -/
def okBackend : NotificationBackend := ⟨"ok", fun _ => .ok ()⟩

/-- A channel whose `send` raises on every call. -/
def failBackend : NotificationBackend := ⟨"fail", fun _ => .error "boom"⟩

/-- C9: a dispatch never raises to its caller — it always returns one
outcome per configured channel; the outcome at each position is computed
solely from that channel's own `send` (so every other channel is still
attempted, however many fail); and a raised `send` failure is caught by
`_send_backend` and turned into a logged `failed` outcome rather than
propagating. -/
theorem dispatch_isolates_channel_failures :
    (∀ (backends : List NotificationBackend) (message : String),
       (dispatchToBackends backends message).length = backends.length ∧
       ∀ i : Nat, (dispatchToBackends backends message).get? i =
         (backends.get? i).map (fun b => (b.backendName, send_backend b message))) ∧
    (∀ (b : NotificationBackend) (message err : String),
       b.send message = .error err → send_backend b message = .failed err) := by
  constructor
  · intro backends message
    constructor
    · simp [dispatchToBackends]
    · intro i
      simp [dispatchToBackends]
  · intro b message err h
    simp [send_backend, h]

/-- C9 witness: with a failing and a healthy channel, the dispatch still has
an outcome for both, the healthy one received the message, and the raised
failure was absorbed. -/
theorem dispatch_isolates_channel_failures_witness :
    (dispatchToBackends [failBackend, okBackend] "msg").length = 2 ∧
    (dispatchToBackends [failBackend, okBackend] "msg").get? 1 =
      some ("ok", SendOutcome.sent) ∧
    send_backend failBackend "msg" = .failed "boom" := by
  refine ⟨(dispatch_isolates_channel_failures.1 [failBackend, okBackend] "msg").1, ?_, ?_⟩
  · rw [(dispatch_isolates_channel_failures.1 [failBackend, okBackend] "msg").2 1]
    rfl
  · exact dispatch_isolates_channel_failures.2 failBackend "msg" "boom" rfl

/-! ## C10: summary counting invariant -/

theorem processNode_counts (now : ℚ) (outcome : String → PollOutcome) (hs : HubState)
    (agg : Aggregated) (node : NodeCfg) :
    (processNode now outcome hs agg node).2.summary.online_nodes =
      agg.summary.online_nodes + (if pollFails (outcome node.url) then 0 else 1) ∧
    (processNode now outcome hs agg node).2.summary.offline_nodes =
      agg.summary.offline_nodes + (if pollFails (outcome node.url) then 1 else 0) ∧
    (processNode now outcome hs agg node).2.summary.total_nodes = agg.summary.total_nodes := by
  cases h : outcome node.url <;>
    simp [processNode, poll_agent, pollFails, h] <;>
    cases hc : get_cached_data now _ node.url <;> simp [hc]

theorem aggregateGo_counts (now : ℚ) (outcome : String → PollOutcome) :
    ∀ (l : List NodeCfg) (hs : HubState) (agg : Aggregated),
      (aggregateGo now outcome l hs agg).2.summary.online_nodes +
        (aggregateGo now outcome l hs agg).2.summary.offline_nodes =
        agg.summary.online_nodes + agg.summary.offline_nodes + l.length ∧
      (aggregateGo now outcome l hs agg).2.summary.total_nodes = agg.summary.total_nodes := by
  intro l
  induction l with
  | nil => intro hs agg; simp [aggregateGo]
  | cons node rest ih =>
    intro hs agg
    have hp := processNode_counts now outcome hs agg node
    have hr := ih (processNode now outcome hs agg node).1 (processNode now outcome hs agg node).2
    simp only [aggregateGo]
    refine ⟨?_, ?_⟩
    · rw [hr.1, hp.1, hp.2.1]
      by_cases h : pollFails (outcome node.url) <;> simp [h] <;> omega
    · rw [hr.2, hp.2.2]

/-- C10: for every configured node list and every poll outcome, the
aggregated summary satisfies `online_nodes + offline_nodes = total_nodes`
and `total_nodes` is the number of configured nodes; each node is counted
exactly once — as online when its poll returned fresh data, as offline in
every other case (`processNode_counts` gives the per-node step). -/
theorem aggregate_summary_counts (now : ℚ) (outcome : String → PollOutcome) (hs : HubState) :
    (aggregate_data now outcome hs).2.summary.online_nodes +
      (aggregate_data now outcome hs).2.summary.offline_nodes =
      (aggregate_data now outcome hs).2.summary.total_nodes ∧
    (aggregate_data now outcome hs).2.summary.total_nodes = hs.nodes.length := by
  have h := aggregateGo_counts now outcome hs.nodes hs
    { nodes := [],
      summary := { total_nodes := hs.nodes.length, online_nodes := 0,
                   offline_nodes := 0, total_gpus := 0 } }
  constructor
  · rw [aggregate_data]
    rw [h.1, h.2]
    simp
  · rw [aggregate_data]
    rw [h.2]

/-! ## Settings updates: C2, C7, C8 -/

theorem applyRuleEntry_state (entry : RuleEntryPayload) (m : AlertManager) :
    (applyRuleEntry entry m).1.state = m.state := by
  unfold applyRuleEntry
  cases entry.name with
  | none => rfl
  | some n =>
    by_cases h : n = "" ∨ ruleNameMem m.rules n = false
    · simp [h]
    · simp only [if_neg h]
      cases entry.threshold with
      | none =>
        simp only [orRaise]
        cases hr : entry.reset_delta with
        | none => rfl
        | some raw =>
          cases raw with
          | num q => by_cases hq : q < 0 <;> simp [hr, safe_float, hq]
          | null => simp [hr]
          | nonnum => simp [hr, safe_float]
      | some raw =>
        cases raw with
        | num q =>
          by_cases hq : q < 0
          · simp [safe_float, hq, orRaise]
          · simp only [safe_float, if_neg hq, orRaise]
            cases hr : entry.reset_delta with
            | none => rfl
            | some raw2 =>
              cases raw2 with
              | num q2 => by_cases hq2 : q2 < 0 <;> simp [hr, safe_float, hq2]
              | null => simp [hr]
              | nonnum => simp [hr, safe_float]
        | null => simp [safe_float, orRaise]
        | nonnum => simp [safe_float, orRaise]

theorem applyRulesFold_state (entries : List RuleEntryPayload) :
    ∀ (acc : AlertManager × Option ApplyError),
      ((entries.foldl (fun acc entry => orRaise acc (applyRuleEntry entry)) acc)).1.state =
        acc.1.state := by
  induction entries with
  | nil => intro acc; rfl
  | cons e rest ih =>
    intro acc
    rw [List.foldl_cons, ih]
    cases acc with
    | mk m err =>
      cases err with
      | none => exact applyRuleEntry_state e m
      | some e2 => rfl

theorem apply_validated_state (p : SettingsPayload) (m : AlertManager) :
    (apply_validated p m).1.state = m.state := by
  unfold apply_validated
  have h1 : (applyEnabled p m).1.state = m.state := by
    unfold applyEnabled; cases p.enabled <;> rfl
  have h2 : ∀ m', (applyCooldown p m').1.state = m'.state := by
    intro m'; unfold applyCooldown
    cases p.cooldown_seconds with
    | none => rfl
    | some raw => cases raw with
      | num q => simp [safe_float]; split <;> rfl
      | null => simp [safe_float]
      | nonnum => simp [safe_float]
  have h3 : ∀ m', (applyResetDelta p m').1.state = m'.state := by
    intro m'; unfold applyResetDelta
    cases p.reset_delta with
    | none => rfl
    | some raw => cases raw with
      | num q => simp [safe_float]; split <;> rfl
      | null => simp
      | nonnum => simp [safe_float]
  have h4 : ∀ m', (applyRules p m').1.state = m'.state := by
    intro m'; unfold applyRules
    cases p.rules with
    | none => rfl
    | some entries => exact applyRulesFold_state entries (m', none)
  have h5 : ∀ m', (applyBackends p m').1.state = m'.state := by
    intro m'; unfold applyBackends
    cases p.backends with
    | none => rfl
    | some chans =>
      cases hn : normalize_backend_payload (some chans) <;>
        by_cases hcb : m'.custom_backends = true <;> simp [hn, hcb]
  have step : ∀ (r : AlertManager × Option ApplyError)
      (f : AlertManager → AlertManager × Option ApplyError),
      (∀ m', (f m').1.state = m'.state) → (orRaise r f).1.state = r.1.state := by
    intro r f hf
    cases r with
    | mk m' err => cases err with
      | none => exact hf m'
      | some e => rfl
  rw [step _ _ h5, step _ _ h4, step _ _ h3, step _ _ h2, h1]

/-- C2 (amended): a validation failure in `update_settings` raises, and the
per-(node, device, rule) `AlertState` table is untouched (`_state.clear()`
runs only after all validation passed); but the fields already assigned
before the failing field keep their new values — the payload is not applied
atomically (see the counterexample). -/
theorem update_settings_validation_keeps_alert_state (p : SettingsPayload)
    (hasStore saveOk : Bool) (m : AlertManager)
    (h : isValidationError (update_settings p hasStore saveOk m).2 = true) :
    (update_settings p hasStore saveOk m).1.state = m.state := by
  unfold update_settings apply_settings_locked at *
  cases hv : apply_validated p m with
  | mk m1 err =>
    cases err with
    | some e =>
      have h1 : m1.state = m.state := by
        have := apply_validated_state p m
        rw [hv] at this
        exact this
      simp only [hv, orRaise] at *
      exact h1
    | none =>
      rw [hv] at h
      simp only [orRaise] at h
      by_cases hp : (true && hasStore && !saveOk) = true
      · rw [if_pos hp] at h
        simp [isValidationError] at h
      · rw [if_neg hp] at h
        simp [isValidationError] at h

/-- A manager with notifications disabled. -/
def mgrOff : AlertManager := { mgr0 with enabled := false }

/-- A manager with an active alert state entry. -/
def mgrActive : AlertManager :=
  { mgr0 with state := [(("node-1", "0", "temperature"), ⟨true, 0⟩)] }

/-- A payload whose `enabled` field is valid but whose `cooldown_seconds`
is not a number. -/
def badPayload : SettingsPayload :=
  { enabled := some true, cooldown_seconds := some .nonnum }

/-- C2 counterexample: `update_settings` with a payload that fails
validation on `cooldown_seconds` still flips `enabled` (which was processed
first), so the claimed all-or-nothing behaviour does not hold. -/
theorem update_settings_not_atomic_counterexample :
    isValidationError (update_settings badPayload false true mgrOff).2 = true ∧
    mgrOff.enabled = false ∧
    (update_settings badPayload false true mgrOff).1.enabled = true := by
  refine ⟨rfl, rfl, rfl⟩

/-- C2 witness: on a validation failure the alert-state table survives
exactly as it was. -/
theorem update_settings_validation_keeps_alert_state_witness :
    isValidationError (update_settings badPayload false true mgrActive).2 = true ∧
    (update_settings badPayload false true mgrActive).1.state = mgrActive.state :=
  ⟨rfl, update_settings_validation_keeps_alert_state badPayload false true mgrActive rfl⟩

theorem updateLastRule_threshold (q : ℚ) :
    ∀ (rules : List AlertRule) (n : String),
      (rules.map AlertRule.name).Nodup →
      ∀ r' ∈ updateLastRule rules n (fun r => { r with threshold := q }),
        r'.name = n → r'.threshold = q := by
  intro rules
  induction rules with
  | nil => intro n _ r' hr; simp [updateLastRule] at hr
  | cons r rest ih =>
    intro n hnd r' hr hname
    have hnd' : (rest.map AlertRule.name).Nodup := (List.nodup_cons.mp hnd).2
    have hhead : r.name ∉ rest.map AlertRule.name := (List.nodup_cons.mp hnd).1
    by_cases h1 : rest.any (fun r2 => r2.name = n) = true
    · rw [updateLastRule, if_pos h1] at hr
      rcases List.mem_cons.mp hr with h | h
      · subst h
        exfalso
        rcases List.any_eq_true.mp h1 with ⟨r2, hr2, hr2n⟩
        exact hhead (by
          rw [hname]
          rw [← of_decide_eq_true hr2n]
          exact List.mem_map_of_mem AlertRule.name hr2)
      · exact ih n hnd' r' h hname
    · rw [updateLastRule, if_neg h1] at hr
      by_cases h2 : r.name = n
      · rw [if_pos h2] at hr
        rcases List.mem_cons.mp hr with h | h
        · subst h; rfl
        · exfalso
          exact h1 (List.any_eq_true.mpr ⟨r', h, decide_eq_true hname⟩)
      · rw [if_neg h2] at hr
        rcases List.mem_cons.mp hr with h | h
        · subst h; exact absurd hname h2
        · exfalso
          exact h1 (List.any_eq_true.mpr ⟨r', h, decide_eq_true hname⟩)

/-- The payload of the spec's settings round-trip:
`{rules: [{name: "temperature", threshold: 70}]}`. -/
def tempPayload70 : SettingsPayload :=
  { rules := some [{ name := some "temperature", threshold := some (.num 70) }] }

/-- C7: on a manager that has a rule named `temperature` (names unique, as
for the built-in rule set), a successful `update_settings` with
`{rules: [{name: "temperature", threshold: 70}]}` returns a snapshot whose
`temperature` rule reports threshold 70, and leaves the per-(node, device,
rule) state table empty. -/
theorem update_settings_round_trip (m : AlertManager) (hasStore saveOk : Bool)
    (hmem : ruleNameMem m.rules "temperature" = true)
    (hnd : (m.rules.map AlertRule.name).Nodup)
    (hsave : hasStore = false ∨ saveOk = true) :
    exceptIsOk (update_settings tempPayload70 hasStore saveOk m).2 = true ∧
    (update_settings tempPayload70 hasStore saveOk m).1.state = [] ∧
    ∀ rs ∈ snapshotRulesOf (update_settings tempPayload70 hasStore saveOk m).2,
      rs.name = "temperature" → rs.threshold = 70 := by
  have happ : apply_validated tempPayload70 m =
      ({ m with rules := (updateLastRule m.rules "temperature"
           (fun r => { r with threshold := 70 })) }, none) := by
    unfold apply_validated applyEnabled applyCooldown applyResetDelta applyRules
      applyBackends applyRuleEntry orRaise tempPayload70
    simp [safe_float, hmem]
    rw [if_neg (by norm_num : ¬ (70:ℚ) < 0)]
  have hpersist : (true && hasStore && !saveOk) = false := by
    rcases hsave with h | h <;> simp [h]
  have hres : update_settings tempPayload70 hasStore saveOk m =
      ({ m with rules := (updateLastRule m.rules "temperature"
            (fun r => { r with threshold := 70 })), state := [] },
       .ok (snapshot_for_response_locked
         { m with rules := (updateLastRule m.rules "temperature"
             (fun r => { r with threshold := 70 })), state := [] })) := by
    unfold update_settings apply_settings_locked
    rw [happ]
    simp only [orRaise, hpersist]
    rfl
  rw [hres]
  refine ⟨rfl, rfl, ?_⟩
  intro rs hrs hname
  simp only [snapshotRulesOf, snapshot_for_response_locked] at hrs
  rcases List.mem_map.mp hrs with ⟨r', hr', hmap⟩
  have := updateLastRule_threshold 70 m.rules "temperature" hnd r' hr'
    (by rw [← hmap] at hname; exact hname)
  rw [← hmap]
  simpa [ruleSnapshotOf] using this

/-- C7 witness at the concrete test fixture. -/
theorem update_settings_round_trip_witness :
    exceptIsOk (update_settings tempPayload70 false true mgr0).2 = true ∧
    (update_settings tempPayload70 false true mgr0).1.state = [] ∧
    ∀ rs ∈ snapshotRulesOf (update_settings tempPayload70 false true mgr0).2,
      rs.name = "temperature" → rs.threshold = 70 :=
  update_settings_round_trip mgr0 false true (by rfl) (by simp [mgr0, tempRule]) (Or.inl rfl)

/-- C8: when the payload passes validation (witnessed by the same call
succeeding with a working store) but the store's `save` fails, the call
raises `RuntimeError` — a persistence error, not a validation error — and
the in-memory manager is exactly the one the successful run produces: all
validated changes applied and the alert-state table cleared, with no
rollback. -/
theorem update_settings_persistence_failure (p : SettingsPayload) (m : AlertManager)
    (hok : exceptIsOk (update_settings p true true m).2 = true) :
    (update_settings p true false m).2 = .error .persistence ∧
    isValidationError (update_settings p true false m).2 = false ∧
    (update_settings p true false m).1 = (update_settings p true true m).1 ∧
    (update_settings p true false m).1.state = [] := by
  cases hv : apply_validated p m with
  | mk m1 err =>
    cases err with
    | some e =>
      exfalso
      unfold update_settings apply_settings_locked at hok
      rw [hv] at hok
      simp [orRaise, exceptIsOk] at hok
    | none =>
      have hfail : update_settings p true false m =
          ({ m1 with state := [] }, .error .persistence) := by
        unfold update_settings apply_settings_locked
        rw [hv]
        rfl
      have hgood : update_settings p true true m =
          ({ m1 with state := [] },
           .ok (snapshot_for_response_locked { m1 with state := [] })) := by
        unfold update_settings apply_settings_locked
        rw [hv]
        rfl
      rw [hfail, hgood]
      exact ⟨rfl, rfl, rfl, rfl⟩

/-- C8 witness: a valid threshold update against a store whose save fails. -/
theorem update_settings_persistence_failure_witness :
    (update_settings tempPayload70 true false mgr0).2 = .error .persistence ∧
    isValidationError (update_settings tempPayload70 true false mgr0).2 = false ∧
    (update_settings tempPayload70 true false mgr0).1 =
      (update_settings tempPayload70 true true mgr0).1 ∧
    (update_settings tempPayload70 true false mgr0).1.state = [] :=
  update_settings_persistence_failure tempPayload70 mgr0 (by rfl)

/-! ## Evaluate-cycle claims: C4, C3, C1 -/

/-- C4: if an enabled rule's extractor yields no value for a device, that
rule adds nothing to the triggered batch in that cycle, and the
(node, device, rule) state ends the cycle with `active = false` (its
`last_sent` is kept) — so missing data cannot keep an alert active. -/
theorem missing_value_never_triggers_and_clears
    (m : AlertManager) (timestamp : ℚ) (node_name gpu_id : String)
    (metrics : Metrics) (acc : RuleCycleAcc) (rule : AlertRule)
    (hen : rule.is_enabled = true)
    (hnone : rule.extractor metrics = none) :
    (evalRuleStep m timestamp node_name gpu_id metrics acc rule).triggered = acc.triggered ∧
    tableGet (evalRuleStep m timestamp node_name gpu_id metrics acc rule).table
        (node_name, gpu_id, rule.name) =
      ⟨false, (tableGet acc.table (node_name, gpu_id, rule.name)).last_sent⟩ := by
  unfold evalRuleStep
  rw [hen, hnone]
  constructor
  · repeat' split
    all_goals simp_all [apply_ite RuleCycleAcc.triggered]
  · repeat' split
    all_goals simp_all [apply_ite RuleCycleAcc.table, tableGet,
      apply_ite (fun t : StateTable => assocGet t (node_name, gpu_id, rule.name)),
      assocGet_assocSet_self]

/-- C4 witness: temperature was alerting, then the field disappears; the
next cycle clears the state and does not trigger. -/
theorem missing_value_never_triggers_and_clears_witness :
    tempRule.is_enabled = true ∧
    tempRule.extractor [] = none ∧
    (evalRuleStep mgr0 1 "node-1" "0"
        [] ⟨[(("node-1", "0", "temperature"), ⟨true, 0⟩)], [], []⟩ tempRule).triggered = [] ∧
    tableGet (evalRuleStep mgr0 1 "node-1" "0"
        [] ⟨[(("node-1", "0", "temperature"), ⟨true, 0⟩)], [], []⟩ tempRule).table
        ("node-1", "0", "temperature") = ⟨false, 0⟩ := by
  refine ⟨by rfl, by rfl, ?_⟩
  have h := missing_value_never_triggers_and_clears mgr0 1 "node-1" "0"
    [] ⟨[(("node-1", "0", "temperature"), ⟨true, 0⟩)], [], []⟩ tempRule (by rfl) (by rfl)
  exact ⟨h.1, h.2⟩

/-- C3: a rule enters the triggered batch exactly when the extracted value
is present and at or above the threshold and (`active` is false or
`now - last_sent ≥ cooldown_seconds`); on a trigger the state becomes
`{active := true, last_sent := now}`.  Concretely (threshold 80,
cooldown 60, constant value 90): alerts at t=0 and t=65, none at t=10 —
exactly 2 triggered events. -/
theorem trigger_iff_over_threshold_and_cooldown
    (m : AlertManager) (timestamp : ℚ) (node_name gpu_id : String)
    (metrics : Metrics) (acc : RuleCycleAcc) (rule : AlertRule)
    (hen : rule.is_enabled = true) :
    ((evalRuleStep m timestamp node_name gpu_id metrics acc rule).triggered =
      acc.triggered ++
        (match rule.extractor metrics with
         | none => []
         | some v =>
           if decide (v ≥ rule.threshold) &&
              (!(tableGet acc.table (node_name, gpu_id, rule.name)).active ||
               decide (timestamp - (tableGet acc.table (node_name, gpu_id, rule.name)).last_sent ≥
                 m.cooldown_seconds))
           then [(rule.name, v)] else [])) ∧
    (∀ v, rule.extractor metrics = some v →
       (decide (v ≥ rule.threshold) &&
        (!(tableGet acc.table (node_name, gpu_id, rule.name)).active ||
         decide (timestamp - (tableGet acc.table (node_name, gpu_id, rule.name)).last_sent ≥
           m.cooldown_seconds))) = true →
       tableGet (evalRuleStep m timestamp node_name gpu_id metrics acc rule).table
         (node_name, gpu_id, rule.name) = ⟨true, timestamp⟩) ∧
    (cdStep1.2.map Dispatch.event = ["alert"] ∧ cdStep2.2 = [] ∧
     cdStep3.2.map Dispatch.event = ["alert"]) := by
  refine ⟨?_, ?_, by with_unfolding_all decide⟩
  · unfold evalRuleStep
    rw [hen]
    cases hval : rule.extractor metrics with
    | none =>
      repeat' split
      all_goals simp_all [apply_ite RuleCycleAcc.triggered]
    | some v =>
      by_cases hover : v ≥ rule.threshold
      · by_cases hcool : (!(tableGet acc.table (node_name, gpu_id, rule.name)).active ||
          decide (timestamp - (tableGet acc.table (node_name, gpu_id, rule.name)).last_sent ≥
            m.cooldown_seconds)) = true
        · simp [hover, hcool]
        · simp [hover, hcool]
      · repeat' split
        all_goals simp_all [apply_ite RuleCycleAcc.triggered, hover]
  · intro v hv hcond
    rw [Bool.and_eq_true] at hcond
    unfold evalRuleStep
    rw [hen, hv]
    simp only [hcond.1, hcond.2]
    simp [tableGet, assocGet_assocSet_self, of_decide_eq_true hcond.1]

/-- C3 witness: the general trigger characterization applied at t=10 of the
cooldown scenario (value 90, alert fired at t=0): the batch stays empty
because `10 - 0 < 60`, together with the full 3-step scenario. -/
theorem trigger_iff_over_threshold_and_cooldown_witness :
    ((evalRuleStep cdStep1.1 10 "node-1" "0" gpu90
        ⟨cdStep1.1.state, [], []⟩ tempRule).triggered =
      [] ++
        (match tempRule.extractor gpu90 with
         | none => []
         | some v =>
           if decide (v ≥ tempRule.threshold) &&
              (!(tableGet cdStep1.1.state ("node-1", "0", "temperature")).active ||
               decide (10 - (tableGet cdStep1.1.state ("node-1", "0", "temperature")).last_sent ≥
                 cdStep1.1.cooldown_seconds))
           then [("temperature", v)] else [])) ∧
    (cdStep1.2.map Dispatch.event = ["alert"] ∧ cdStep2.2 = [] ∧
     cdStep3.2.map Dispatch.event = ["alert"]) := by
  have h := trigger_iff_over_threshold_and_cooldown cdStep1.1 10 "node-1" "0" gpu90
    ⟨cdStep1.1.state, [], []⟩ tempRule (by rfl)
  exact ⟨h.1, h.2.2⟩

/-- C1 counterexample: threshold 80, reset_delta 5, alert active after
value 90 at t=0.  A value of 78 at t=1 lies strictly inside the hysteresis
band (75, 80), yet the state flips to `active = false` (the claim says it
must stay active), no recovery is dispatched, and the immediately following
value 90 at t=2 dispatches a fresh alert although only 2 s of the 60 s
cooldown have passed — the cooldown check is bypassed. -/
theorem hysteresis_band_state_counterexample :
    tempRule.threshold - 5 < 78 ∧ (78 : ℚ) < tempRule.threshold ∧
    tempRule.reset_delta = some 5 ∧
    mgr0.cooldown_seconds = 60 ∧
    (tableGet cdStep1.1.state ("node-1", "0", "temperature")) = ⟨true, 0⟩ ∧
    (tableGet hyStep2.1.state ("node-1", "0", "temperature")).active = false ∧
    hyStep2.2 = [] ∧
    hyStep3.2.map Dispatch.event = ["alert"] ∧
    (2 : ℚ) - 0 < mgr0.cooldown_seconds := by
  with_unfolding_all decide

/-- C1 (amended): when an enabled rule's value is not over the threshold,
the code clears `active` unconditionally (keeping `last_sent`); the
recovery confirmation — value absent, or no reset_delta configured, or
`value ≤ threshold - reset_delta` — together with the cooldown check gates
only whether a recovery notification is batched, not the state transition.
A value strictly inside the hysteresis band therefore deactivates the alert
silently, and a following value at or above the threshold triggers again
immediately. -/
theorem below_threshold_clears_active_unconditionally
    (m : AlertManager) (timestamp : ℚ) (node_name gpu_id : String)
    (metrics : Metrics) (acc : RuleCycleAcc) (rule : AlertRule)
    (hen : rule.is_enabled = true)
    (hnotover : (match rule.extractor metrics with
                 | some v => decide (v ≥ rule.threshold)
                 | none => false) = false) :
    (evalRuleStep m timestamp node_name gpu_id metrics acc rule).table =
      assocSet acc.table (node_name, gpu_id, rule.name)
        ⟨false, (tableGet acc.table (node_name, gpu_id, rule.name)).last_sent⟩ ∧
    (evalRuleStep m timestamp node_name gpu_id metrics acc rule).triggered = acc.triggered ∧
    (evalRuleStep m timestamp node_name gpu_id metrics acc rule).recovered =
      acc.recovered ++
        (if (tableGet acc.table (node_name, gpu_id, rule.name)).active &&
            (match rule.extractor metrics,
                   (match rule.reset_delta with
                    | some r => some r
                    | none => m.reset_delta) with
             | none, _ => true
             | some _, none => true
             | some v, some r => decide (v ≤ rule.threshold - r)) &&
            (decide (m.cooldown_seconds ≤ 0) ||
             decide (timestamp - (tableGet acc.table (node_name, gpu_id, rule.name)).last_sent ≥
               m.cooldown_seconds))
         then [(rule.name, rule.extractor metrics)] else []) := by
  unfold evalRuleStep
  rw [hen]
  simp only [hnotover]
  refine ⟨?_, ?_, ?_⟩
  · repeat' split
    all_goals simp_all [apply_ite RuleCycleAcc.table]
  · repeat' split
    all_goals simp_all [apply_ite RuleCycleAcc.triggered]
  · by_cases ha : (tableGet acc.table (node_name, gpu_id, rule.name)).active
    · by_cases hr : (match rule.extractor metrics,
          (match rule.reset_delta with
           | some r => some r
           | none => m.reset_delta) with
         | none, _ => true
         | some _, none => true
         | some v, some r => decide (v ≤ rule.threshold - r)) = true
      · by_cases hn : (decide (m.cooldown_seconds ≤ 0) ||
            decide (timestamp - (tableGet acc.table (node_name, gpu_id, rule.name)).last_sent ≥
              m.cooldown_seconds)) = true
        · simp [ha, hr, hn]
        · simp [ha, hr, hn]
      · simp [ha, hr]
    · simp [ha]

/-- C1 amended witness: at the counterexample point (value 78, band
(75, 78, 80), alert active with `last_sent = 0`), the state is cleared and
no recovery entry is batched. -/
theorem below_threshold_clears_active_unconditionally_witness :
    (evalRuleStep cdStep1.1 1 "node-1" "0" gpu78
        ⟨cdStep1.1.state, [], []⟩ tempRule).table =
      assocSet cdStep1.1.state ("node-1", "0", "temperature")
        ⟨false, (tableGet cdStep1.1.state ("node-1", "0", "temperature")).last_sent⟩ ∧
    (evalRuleStep cdStep1.1 1 "node-1" "0" gpu78
        ⟨cdStep1.1.state, [], []⟩ tempRule).triggered = [] ∧
    (evalRuleStep cdStep1.1 1 "node-1" "0" gpu78
        ⟨cdStep1.1.state, [], []⟩ tempRule).recovered =
      [] ++
        (if (tableGet cdStep1.1.state ("node-1", "0", "temperature")).active &&
            (match tempRule.extractor gpu78,
                   (match tempRule.reset_delta with
                    | some r => some r
                    | none => cdStep1.1.reset_delta) with
             | none, _ => true
             | some _, none => true
             | some v, some r => decide (v ≤ tempRule.threshold - r)) &&
            (decide (cdStep1.1.cooldown_seconds ≤ 0) ||
             decide (1 - (tableGet cdStep1.1.state ("node-1", "0", "temperature")).last_sent ≥
               cdStep1.1.cooldown_seconds))
         then [("temperature", tempRule.extractor gpu78)] else []) :=
  below_threshold_clears_active_unconditionally cdStep1.1 1 "node-1" "0" gpu78
    ⟨cdStep1.1.state, [], []⟩ tempRule (by rfl) (by with_unfolding_all decide)

/-! ## C5: one outbound message per device per cycle -/

theorem mem_evaluateGpu_fields (m : AlertManager) (ts : ℚ) (node gid : String)
    (metrics : Metrics) (t : StateTable) (d : Dispatch)
    (hd : d ∈ (evaluateGpu m ts node gid metrics t).2) :
    d.node_name = node ∧ d.gpu_id = gid ∧ (d.event = "alert" ∨ d.event = "recovery") := by
  simp only [evaluateGpu] at hd
  rcases List.mem_append.mp hd with h | h
  · split at h
    · simp at h
    · rw [List.mem_singleton] at h
      subst h
      exact ⟨rfl, rfl, Or.inl rfl⟩
  · split at h
    · simp at h
    · rw [List.mem_singleton] at h
      subst h
      exact ⟨rfl, rfl, Or.inr rfl⟩

theorem filter_append_le_one {α : Type} (p : α → Bool) (A B : List α)
    (hA : A.length ≤ 1) (hB : B.length ≤ 1)
    (hexcl : ∀ a ∈ A, ∀ b ∈ B, ¬(p a = true ∧ p b = true)) :
    ((A ++ B).filter p).length ≤ 1 := by
  match A, hA with
  | [], _ =>
    simpa using le_trans (List.length_filter_le p B) hB
  | [a], _ =>
    match B, hB with
    | [], _ => simpa using le_trans (List.length_filter_le p [a]) (by simp)
    | [b], _ =>
      by_cases hpa : p a = true <;> by_cases hpb : p b = true
      · exact absurd ⟨hpa, hpb⟩ (hexcl a (by simp) b (by simp))
      · simp [List.filter, hpa, hpb]
      · simp [List.filter, hpa, hpb]
      · simp [List.filter, hpa, hpb]

theorem evaluateGpu_filter_le_one (m : AlertManager) (ts : ℚ) (node gid : String)
    (metrics : Metrics) (t : StateTable) (gid' e : String) :
    ((evaluateGpu m ts node gid metrics t).2.filter
      (fun d => decide (d.gpu_id = gid' ∧ d.event = e))).length ≤ 1 := by
  simp only [evaluateGpu]
  apply filter_append_le_one
  · split <;> simp
  · split <;> simp
  · intro a ha b hb
    split at ha
    · simp at ha
    · split at hb
      · simp at hb
      · rw [List.mem_singleton] at ha hb
        subst ha; subst hb
        intro hcontra
        have h1 := of_decide_eq_true hcontra.1
        have h2 := of_decide_eq_true hcontra.2
        rw [← h2.2] at h1
        simp at h1

theorem evalGpus_gpu_mem (m : AlertManager) (ts : ℚ) (node : String) :
    ∀ (l : List (String × Metrics)) (t : StateTable) (d : Dispatch),
      d ∈ (evalGpus m ts node l t).2 → d.gpu_id ∈ l.map Prod.fst := by
  intro l
  induction l with
  | nil => intro t d hd; simp [evalGpus] at hd
  | cons g rest ih =>
    intro t d hd
    simp only [evalGpus] at hd
    rcases List.mem_append.mp hd with h | h
    · have := mem_evaluateGpu_fields m ts node g.1 g.2 t d h
      simp [this.2.1]
    · have := ih _ d h
      simp [this]

theorem evalGpus_filter_le_one (m : AlertManager) (ts : ℚ) (node gid e : String) :
    ∀ (l : List (String × Metrics)) (t : StateTable), (l.map Prod.fst).Nodup →
      ((evalGpus m ts node l t).2.filter
        (fun d => decide (d.gpu_id = gid ∧ d.event = e))).length ≤ 1 := by
  intro l
  induction l with
  | nil => intro t _; simp [evalGpus]
  | cons g rest ih =>
    intro t hnd
    have hnd' : (rest.map Prod.fst).Nodup := (List.nodup_cons.mp (by simpa using hnd)).2
    have hhead : g.1 ∉ rest.map Prod.fst := (List.nodup_cons.mp (by simpa using hnd)).1
    simp only [evalGpus, List.filter_append, List.length_append]
    by_cases hg : g.1 = gid
    · have htail : ((evalGpus m ts node rest (evaluateGpu m ts node g.1 g.2 t).1).2.filter
          (fun d => decide (d.gpu_id = gid ∧ d.event = e))) = [] := by
        rw [List.filter_eq_nil_iff]
        intro d hd
        have hmem := evalGpus_gpu_mem m ts node rest _ d hd
        simp only [decide_eq_true_eq, not_and]
        intro hdg _
        rw [hdg, ← hg] at hmem
        exact hhead hmem
      rw [htail]
      simpa using evaluateGpu_filter_le_one m ts node g.1 g.2 t gid e
    · have hheadnil : ((evaluateGpu m ts node g.1 g.2 t).2.filter
          (fun d => decide (d.gpu_id = gid ∧ d.event = e))) = [] := by
        rw [List.filter_eq_nil_iff]
        intro d hd
        have := mem_evaluateGpu_fields m ts node g.1 g.2 t d hd
        simp only [decide_eq_true_eq, not_and]
        intro hdg
        rw [this.2.1] at hdg
        exact absurd hdg hg
      rw [hheadnil]
      simpa using ih _ hnd'

theorem evalGpus_alert_provenance (m : AlertManager) (ts : ℚ) (node : String) :
    ∀ (l : List (String × Metrics)) (t : StateTable) (d : Dispatch),
      d ∈ (evalGpus m ts node l t).2 → d.event = "alert" →
      ∃ t' g, g ∈ l ∧
        d = ⟨node, g.1, "alert",
             ((rulePass m ts node g.1 g.2 t').triggered).map (fun p => (p.1, some p.2))⟩ ∧
        (rulePass m ts node g.1 g.2 t').triggered ≠ [] := by
  intro l
  induction l with
  | nil => intro t d hd; simp [evalGpus] at hd
  | cons g rest ih =>
    intro t d hd hev
    simp only [evalGpus] at hd
    rcases List.mem_append.mp hd with h | h
    · simp only [evaluateGpu] at h
      rcases List.mem_append.mp h with h2 | h2
      · split at h2
        · simp at h2
        · rw [List.mem_singleton] at h2
          refine ⟨t, g, List.mem_cons_self g rest, h2, ?_⟩
          intro hnil
          simp_all
      · split at h2
        · simp at h2
        · rw [List.mem_singleton] at h2
          subst h2
          simp at hev
    · obtain ⟨t', g', hg', hdd, hne⟩ := ih _ d h hev
      exact ⟨t', g', List.mem_cons_of_mem g hg', hdd, hne⟩

theorem evalGpus_alert_exists (m : AlertManager) (ts : ℚ) (node : String) :
    ∀ (l : List (String × Metrics)) (t : StateTable) (g : String × Metrics), g ∈ l →
      ∃ t', (rulePass m ts node g.1 g.2 t').triggered ≠ [] →
        (⟨node, g.1, "alert",
          ((rulePass m ts node g.1 g.2 t').triggered).map (fun p => (p.1, some p.2))⟩ : Dispatch) ∈
          (evalGpus m ts node l t).2 := by
  intro l
  induction l with
  | nil => intro t g hg; simp at hg
  | cons g0 rest ih =>
    intro t g hg
    rcases List.mem_cons.mp hg with heq | hmem
    · subst heq
      refine ⟨t, fun hne => ?_⟩
      simp only [evalGpus]
      apply List.mem_append_left
      simp only [evaluateGpu]
      apply List.mem_append_left
      rw [if_neg (by simpa using hne)]
      exact List.mem_singleton.mpr rfl
    · obtain ⟨t', ht'⟩ := ih (evaluateGpu m ts node g0.1 g0.2 t).1 g hmem
      refine ⟨t', fun hne => ?_⟩
      simp only [evalGpus]
      exact List.mem_append_right _ (ht' hne)

/-- C5: in one evaluation cycle, a given (node, device) receives at most one
alert dispatch and at most one recovery dispatch (never one message per
rule), and every alert dispatch carries the entire triggered batch of a
single per-device rule pass over that device's metrics. -/
theorem batch_per_device (m : AlertManager) (ts : ℚ) (node : String)
    (gpu_data : List (String × Metrics)) (gid : String)
    (hnd : (gpu_data.map Prod.fst).Nodup) :
    (((AlertManager.evaluate m ts node gpu_data).2.filter
        (fun d => decide (d.gpu_id = gid ∧ d.event = "alert"))).length ≤ 1) ∧
    (((AlertManager.evaluate m ts node gpu_data).2.filter
        (fun d => decide (d.gpu_id = gid ∧ d.event = "recovery"))).length ≤ 1) ∧
    (∀ d ∈ (AlertManager.evaluate m ts node gpu_data).2, d.event = "alert" →
       ∃ t' g, g ∈ gpu_data ∧
         d = ⟨node, g.1, "alert",
              ((rulePass m ts node g.1 g.2 t').triggered).map (fun p => (p.1, some p.2))⟩ ∧
         (rulePass m ts node g.1 g.2 t').triggered ≠ []) ∧
    (m.is_active_locked = true → ∀ g ∈ gpu_data,
       ∃ t', (rulePass m ts node g.1 g.2 t').triggered ≠ [] →
         (⟨node, g.1, "alert",
           ((rulePass m ts node g.1 g.2 t').triggered).map (fun p => (p.1, some p.2))⟩ : Dispatch) ∈
           (AlertManager.evaluate m ts node gpu_data).2) := by
  unfold AlertManager.evaluate
  split
  · rename_i hact
    refine ⟨by simp, by simp, by simp, ?_⟩
    intro ha
    rw [ha] at hact
    simp at hact
  · refine ⟨?_, ?_, ?_, ?_⟩
    · exact evalGpus_filter_le_one m ts node gid "alert" gpu_data m.state hnd
    · exact evalGpus_filter_le_one m ts node gid "recovery" gpu_data m.state hnd
    · intro d hd hev
      exact evalGpus_alert_provenance m ts node gpu_data m.state d hd hev
    · intro _ g hg
      exact evalGpus_alert_exists m ts node gpu_data m.state g hg

/-- `lambda gpu: _safe_float(gpu.get("utilization"))`. -/
def utilExtractor : Metrics → Option ℚ := fun gpu => safe_float (assocGet gpu "utilization")

def utilRule : AlertRule :=
  { name := "utilization", label := "Utilization", unit := "%",
    threshold := 90, extractor := utilExtractor, reset_delta := none }

/-- A manager with two enabled rules. -/
def mgr2 : AlertManager := { mgr0 with rules := [tempRule, utilRule] }

/-- Metrics violating both rules at once. -/
def gpuBoth : Metrics := [("temperature", .num 95), ("utilization", .num 99)]

/-- C5 witness: two rules violated simultaneously on one device produce one
single alert message carrying both rule entries, and the general bound
instantiates at that cycle. -/
theorem batch_per_device_witness :
    (AlertManager.evaluate mgr2 0 "node-1" [("0", gpuBoth)]).2.map
      (fun d => (d.event, d.entries.length)) = [("alert", 2)] ∧
    (((AlertManager.evaluate mgr2 0 "node-1" [("0", gpuBoth)]).2.filter
        (fun d => decide (d.gpu_id = "0" ∧ d.event = "alert"))).length ≤ 1) ∧
    (((AlertManager.evaluate mgr2 0 "node-1" [("0", gpuBoth)]).2.filter
        (fun d => decide (d.gpu_id = "0" ∧ d.event = "recovery"))).length ≤ 1) := by
  have h := batch_per_device mgr2 0 "node-1" [("0", gpuBoth)] "0" (by simp)
  exact ⟨by with_unfolding_all decide, h.1, h.2.1⟩

/-! ## C6: offline caching boundary -/

/-- What `poll_agent` records in `node_status` for a failing poll (identity
on a successful one), as a function of the previous record. -/
def failedPollStatus (prev : NodeStatus) : PollOutcome → NodeStatus
  | .success _ => prev
  | .timeout => ⟨"timeout", prev.last_seen, prev.error_count + 1, some "Timeout"⟩
  | .connError => ⟨"offline", prev.last_seen, prev.error_count + 1, some "Connection refused"⟩
  | .otherError msg => ⟨"error", prev.last_seen, prev.error_count + 1, some msg⟩

theorem poll_agent_fail (now : ℚ) (hs : HubState) (node : NodeCfg) (o : PollOutcome)
    (hf : pollFails o = true) :
    (poll_agent now hs node o).2 = none ∧
    (poll_agent now hs node o).1.node_cache = hs.node_cache ∧
    (poll_agent now hs node o).1.node_status =
      assocSet hs.node_status node.url (failedPollStatus (statusGet hs node.url) o) := by
  cases o <;> simp_all [poll_agent, pollFails, failedPollStatus]

theorem processNode_preserves_other (now : ℚ) (outcome : String → PollOutcome)
    (hs : HubState) (agg : Aggregated) (node : NodeCfg) (u : String) (h : node.url ≠ u) :
    assocGet (processNode now outcome hs agg node).2.nodes u = assocGet agg.nodes u ∧
    assocGet (processNode now outcome hs agg node).1.node_cache u = assocGet hs.node_cache u ∧
    assocGet (processNode now outcome hs agg node).1.node_status u = assocGet hs.node_status u := by
  unfold processNode
  cases ho : outcome node.url with
  | success data => simp [poll_agent, assocGet_assocSet_ne _ _ _ _ h]
  | timeout =>
    simp only [poll_agent]
    split <;> simp [assocGet_assocSet_ne _ _ _ _ h]
  | connError =>
    simp only [poll_agent]
    split <;> simp [assocGet_assocSet_ne _ _ _ _ h]
  | otherError msg =>
    simp only [poll_agent]
    split <;> simp [assocGet_assocSet_ne _ _ _ _ h]

theorem aggregateGo_nodes_absent (now : ℚ) (outcome : String → PollOutcome) :
    ∀ (l : List NodeCfg) (hs : HubState) (agg : Aggregated) (u : String),
      u ∉ l.map NodeCfg.url →
      assocGet (aggregateGo now outcome l hs agg).2.nodes u = assocGet agg.nodes u := by
  intro l
  induction l with
  | nil => intro hs agg u _; rfl
  | cons node rest ih =>
    intro hs agg u hu
    simp only [List.map_cons, List.mem_cons, not_or] at hu
    simp only [aggregateGo]
    rw [ih _ _ _ hu.2]
    exact (processNode_preserves_other now outcome hs agg node u
      (fun he => hu.1 he.symm)).1

/-- The per-node entry of the aggregated view for an offline node with a
cache record: the annotated cached snapshot while its age is inside the
window, the empty placeholder with the freshly recorded status after it. -/
def offlineViewEntry (now : ℚ) (prev : NodeStatus) (o : PollOutcome) (c : CacheEntry) :
    NodeData :=
  if now - c.cached_at < CACHE_OFFLINE_DURATION then
    { c.data with status := some "offline", cache_age := some (now - c.cached_at) }
  else
    offlinePlaceholder (failedPollStatus prev o)

theorem aggregateGo_offline_entry (now : ℚ) (outcome : String → PollOutcome)
    (node : NodeCfg) (c : CacheEntry) (prev : NodeStatus) :
    ∀ (l : List NodeCfg) (hs : HubState) (agg : Aggregated),
      (l.map NodeCfg.url).Nodup → node ∈ l →
      pollFails (outcome node.url) = true →
      assocGet hs.node_cache node.url = some c →
      statusGet hs node.url = prev →
      assocGet (aggregateGo now outcome l hs agg).2.nodes node.url =
        some (offlineViewEntry now prev (outcome node.url) c) := by
  intro l
  induction l with
  | nil => intro hs agg _ hmem; simp at hmem
  | cons g rest ih =>
    intro hs agg hnd hmem hfail hc hst
    rw [List.map_cons, List.nodup_cons] at hnd
    have hnd2 := hnd
    rcases List.mem_cons.mp hmem with heq | hmem2
    · subst heq
      have habs : node.url ∉ rest.map NodeCfg.url := hnd2.1
      simp only [aggregateGo]
      rw [aggregateGo_nodes_absent now outcome rest _ _ node.url habs]
      have hp := poll_agent_fail now hs node (outcome node.url) hfail
      simp only [processNode]
      rw [hp.1]
      have hcache1 : assocGet (poll_agent now hs node (outcome node.url)).1.node_cache node.url =
          some c := by rw [hp.2.1]; exact hc
      have hstat1 : statusGet (poll_agent now hs node (outcome node.url)).1 node.url =
          failedPollStatus prev (outcome node.url) := by
        unfold statusGet
        rw [hp.2.2, assocGet_assocSet_self, hst]
        rfl
      unfold get_cached_data
      rw [hcache1]
      by_cases hage : now - c.cached_at < CACHE_OFFLINE_DURATION
      · simp [hage, offlineViewEntry, assocGet_assocSet_self]
      · simp [hage, offlineViewEntry, assocGet_assocSet_self, hstat1]
    · have hne : g.url ≠ node.url := by
        intro he
        exact hnd2.1 (he ▸ (List.mem_map_of_mem NodeCfg.url hmem2))
      have hpres := processNode_preserves_other now outcome hs agg g node.url hne
      simp only [aggregateGo]
      refine ih _ _ hnd2.2 hmem2 hfail ?_ ?_
      · rw [hpres.2.1]; exact hc
      · unfold statusGet
        rw [hpres.2.2]
        exact hst

/-- C6: with `offline_cache_duration = 300`, an offline node whose cached
snapshot is strictly younger than 300 s appears in the aggregated view as
that snapshot annotated `status = "offline"` with its cache age; once the
age reaches 300 s the view instead holds the empty placeholder (no GPUs,
no processes) carrying the node's freshly recorded status and last error —
never the stale cached data. -/
theorem offline_cache_boundary (now : ℚ) (outcome : String → PollOutcome)
    (hs : HubState) (node : NodeCfg) (c : CacheEntry)
    (hnd : (hs.nodes.map NodeCfg.url).Nodup)
    (hmem : node ∈ hs.nodes)
    (hfail : pollFails (outcome node.url) = true)
    (hc : assocGet hs.node_cache node.url = some c) :
    CACHE_OFFLINE_DURATION = 300 ∧
    (now - c.cached_at < 300 →
       assocGet (aggregate_data now outcome hs).2.nodes node.url =
         some { c.data with status := some "offline", cache_age := some (now - c.cached_at) }) ∧
    (300 ≤ now - c.cached_at →
       assocGet (aggregate_data now outcome hs).2.nodes node.url =
         some (offlinePlaceholder (failedPollStatus (statusGet hs node.url)
           (outcome node.url)))) := by
  have h := aggregateGo_offline_entry now outcome node c (statusGet hs node.url)
    hs.nodes hs
    { nodes := [],
      summary := { total_nodes := hs.nodes.length, online_nodes := 0,
                   offline_nodes := 0, total_gpus := 0 } }
    hnd hmem hfail hc rfl
  refine ⟨rfl, ?_, ?_⟩
  · intro hage
    rw [aggregate_data, h]
    simp [offlineViewEntry, CACHE_OFFLINE_DURATION, hage]
  · intro hage
    rw [aggregate_data, h]
    simp [offlineViewEntry, CACHE_OFFLINE_DURATION, not_lt.mpr hage]

/-- Last good snapshot of the first witness node. -/
def wData1 : NodeData := { gpus := ["gpu0"], processes := ["proc0"] }

/-- Last good snapshot of the second witness node. -/
def wData2 : NodeData := { gpus := ["gpu1"], processes := ["proc1"] }

def wNode1 : NodeCfg := ⟨"http://n1:1312", "n1"⟩
def wNode2 : NodeCfg := ⟨"http://n2:1312", "n2"⟩

/-- A hub whose two nodes were last seen 299 s resp. 301 s before t=1000. -/
def wHub : HubState :=
  { nodes := [wNode1, wNode2],
    node_cache := [("http://n1:1312", ⟨wData1, 701⟩), ("http://n2:1312", ⟨wData2, 699⟩)],
    node_status := [("http://n1:1312", ⟨"online", some 701, 0, none⟩),
                    ("http://n2:1312", ⟨"online", some 699, 0, none⟩)] }

/-- Both polls fail with a refused connection. -/
def wOutcome : String → PollOutcome := fun _ => .connError

/-- C6 witness: at t=1000, the 299 s-old node still shows its cached
snapshot with `status = "offline"` and its age, while the 301 s-old node
shows the empty placeholder with the recorded status and error. -/
theorem offline_cache_boundary_witness :
    assocGet (aggregate_data 1000 wOutcome wHub).2.nodes "http://n1:1312" =
      some { wData1 with status := some "offline", cache_age := some ((1000 : ℚ) - 701) } ∧
    assocGet (aggregate_data 1000 wOutcome wHub).2.nodes "http://n2:1312" =
      some (offlinePlaceholder (failedPollStatus (statusGet wHub "http://n2:1312")
        (wOutcome "http://n2:1312"))) := by
  have h1 := offline_cache_boundary 1000 wOutcome wHub wNode1 ⟨wData1, 701⟩
    (by simp [wHub, wNode1, wNode2]) (by simp [wHub]) rfl rfl
  have h2 := offline_cache_boundary 1000 wOutcome wHub wNode2 ⟨wData2, 699⟩
    (by simp [wHub, wNode1, wNode2]) (by simp [wHub]) rfl rfl
  exact ⟨h1.2.1 (by with_unfolding_all decide), h2.2.2 (by with_unfolding_all decide)⟩
